import Mathlib

/-!
Verification of the saved-device registry, favorites list, and discovery
reconciler of `pyvizio/vizio_gui.py` (class `ExtendedWindow`).

The embedding is shallow: each Python method that the claims touch is
translated into a pure Lean function over an explicit state.  File I/O and
the external discovery transport are represented by explicit parameters
(`Option`/`Except` values standing for "file missing", "call raised", or the
value the call produced), so that the control flow of the Python code —
which branch runs on which outcome — is what the Lean definitions encode.
-/

namespace PyvizioGui

/-- A saved device entry, as built by `save_selected_device` (the
`dev_dict` literal): display name, ip, optional port, device type string,
auth token, save timestamp, favorites, and the optional best-effort
enrichment fields (`serial_number`, `esn`, `version`, `udn`). -/
structure DeviceRecord where
  name : String
  ip : String
  port : Option Nat
  device_type : String
  auth_token : String
  saved_at : String
  favorites : List String
  serial_number : Option String := none
  esn : Option String := none
  version : Option String := none
  udn : Option String := none
deriving DecidableEq, Repr

/-- A transient discovery result as surfaced by the transport
(`getattr(dev, 'name'/'ip'/'port')`). -/
structure DiscoveredDevice where
  name : String
  ip : String
  port : Option Nat
deriving DecidableEq, Repr

/-- The identity test used at `vizio_gui.py:519`, `:536` and `:914`:
`d.get('ip') == ip and d.get('port') == port`. -/
def keyEq (d : DeviceRecord) (ip : String) (port : Option Nat) : Bool :=
  decide (d.ip = ip ∧ d.port = port)

/-- The registry invariant of spec section 3: (`host`, `port`) uniquely
identifies a record within the registry. -/
def keyUnique (rs : List DeviceRecord) : Prop :=
  List.Pairwise (fun a b => ¬(a.ip = b.ip ∧ a.port = b.port)) rs

/-- The duplicate-avoidance loop of `save_selected_device`
(`vizio_gui.py:516-524`): walk the saved list, replace the first entry whose
(`ip`, `port`) matches the new record and stop; append when no entry
matches. -/
def upsertRecord (rs : List DeviceRecord) (r : DeviceRecord) : List DeviceRecord :=
  match rs with
  | [] => [r]
  | d :: ds => if keyEq d r.ip r.port then r :: ds else d :: upsertRecord ds r

/-- `remove_saved_device` (`vizio_gui.py:536`): keep every record whose
(`ip`, `port`) does not match the selected one. -/
def removeRecord (rs : List DeviceRecord) (ip : String) (port : Option Nat) :
    List DeviceRecord :=
  rs.filter (fun d => !keyEq d ip port)

/-- `load_saved_devices` (`vizio_gui.py:435-443`).  The store file is
represented as `none` when the file does not exist, `some (.error e)` when
opening or `json.load` raises, and `some (.ok rs)` when it parses to a list
of records.  The `try`/`except` swallows any failure and leaves the list
empty. -/
def load_saved_devices (store : Option (Except String (List DeviceRecord))) :
    List DeviceRecord :=
  match store with
  | none => []
  | some (Except.error _) => []
  | some (Except.ok rs) => rs

/-- `save_saved_devices` (`vizio_gui.py:452-458`).  The write is represented
by its outcome `io`; on failure the method shows a warning and returns —
the in-memory list is untouched either way.  Result: the in-memory list
after the call, paired with the reported warning message (if any). -/
def save_saved_devices (rs : List DeviceRecord) (io : Except String Unit) :
    List DeviceRecord × Option String :=
  match io with
  | Except.ok _ => (rs, none)
  | Except.error e => (rs, some ("Failed to save devices: " ++ e))

/-- The slice of `ExtendedWindow` state the favorites claims touch:
`self.favorites` (the favorites of the currently selected device),
`self.saved_devices` (the in-memory registry), the (`ip`, `port`) of the
currently selected *saved* device when `self.selected_device` is a saved
dict (`none` when it is a discovery object or nothing is selected), and a
count of `save_saved_devices` calls (each call writes the whole registry to
disk; the subsequent `load_saved_devices` round-trips it, which on the
in-memory slice is the identity). -/
structure GuiState where
  favorites : List String
  saved_devices : List DeviceRecord
  selected : Option (String × Option Nat)
  saveCount : Nat
deriving DecidableEq, Repr

/-- Outcome of `add_selected_app_to_favorites`, one constructor per
`auth_status` message the method can set: "No app selected to add to
favorites", "App already in favorites", "Favorites full (6). Remove one
before adding", "Added to favorites". -/
inductive AddOutcome where
  | noAppSelected
  | alreadyPresent
  | favoritesFull
  | added
deriving DecidableEq, Repr

/-- The loop body of `save_favorites_to_saved_devices`
(`vizio_gui.py:913-918`): update `favorites` of the first record matching
(`ip`, `port`) and stop. -/
def updateFirstFavorites (rs : List DeviceRecord) (ip : String)
    (port : Option Nat) (favs : List String) : List DeviceRecord :=
  match rs with
  | [] => []
  | d :: ds =>
    if keyEq d ip port then { d with favorites := favs } :: ds
    else d :: updateFirstFavorites ds ip port favs

/-- `save_favorites_to_saved_devices` (`vizio_gui.py:907-918`): when the
selected device is a saved dict and a registry record matches its
(`ip`, `port`), write the current favorites into that record and
immediately call `save_saved_devices` (then `load_saved_devices`);
otherwise do nothing. -/
def save_favorites_to_saved_devices (st : GuiState) : GuiState :=
  match st.selected with
  | none => st
  | some (ip, port) =>
    if st.saved_devices.any (fun d => keyEq d ip port) then
      { st with
        saved_devices := updateFirstFavorites st.saved_devices ip port st.favorites,
        saveCount := st.saveCount + 1 }
    else st

/-- `add_selected_app_to_favorites` (`vizio_gui.py:851-869`), with the
combo-box text passed as `app`: reject (status message, no state change)
when `app` is empty, already a favorite, or the list already has 6 or
more entries; otherwise append `app` and persist through
`save_favorites_to_saved_devices`. -/
def add_selected_app_to_favorites (st : GuiState) (app : String) :
    GuiState × AddOutcome :=
  if app = "" then (st, AddOutcome.noAppSelected)
  else if app ∈ st.favorites then (st, AddOutcome.alreadyPresent)
  else if 6 ≤ st.favorites.length then (st, AddOutcome.favoritesFull)
  else
    (save_favorites_to_saved_devices { st with favorites := st.favorites ++ [app] },
     AddOutcome.added)

/-- The fresh state at construction (`vizio_gui.py:125`, `:437`):
no favorites, empty registry, nothing selected. -/
def freshGui : GuiState :=
  { favorites := [], saved_devices := [], selected := none, saveCount := 0 }

/-- The two discovery transport strategies (`Vizio.discovery_zeroconf`,
`Vizio.discovery_ssdp`). -/
inductive Strategy where
  | zeroconf
  | ssdp
deriving DecidableEq, Repr

/-- The strategy-selection logic shared by `discover_devices`
(`vizio_gui.py:370-383`) and `_background_discover`
(`vizio_gui.py:390-404`): call zeroconf; only when it returns an empty (or
falsy) result, call SSDP.  Each external call is represented by its outcome
(`.error` when it raises).  A raised exception leaves the run with no
devices (`discover_devices` returns with the list already cleared,
`_background_discover` sets `devices = []`).  The second component records,
in order, which strategies the run invoked. -/
def discoveryRun (zc sd : Except String (List DiscoveredDevice)) :
    List DiscoveredDevice × List Strategy :=
  match zc with
  | Except.error _ => ([], [Strategy.zeroconf])
  | Except.ok ds =>
    if ds.isEmpty then
      match sd with
      | Except.error _ => ([], [Strategy.zeroconf, Strategy.ssdp])
      | Except.ok ds2 => (ds2, [Strategy.zeroconf, Strategy.ssdp])
    else (ds, [Strategy.zeroconf])

/-- Effect of a synchronous `discover_devices` run on the visible device
list (`vizio_gui.py:370-388`): the list is cleared at the start
(`self.devices_list.clear()`), so whatever was visible before (`prev`) is
discarded; the run's result (empty on a raised exception) becomes the new
visible list. -/
def discover_devices_update (prev : List DiscoveredDevice)
    (result : Except String (List DiscoveredDevice)) : List DiscoveredDevice :=
  let _ := prev
  match result with
  | Except.error _ => []
  | Except.ok ds => ds

/-- The payload emitted by `_background_discover` (`vizio_gui.py:405`):
the device list plus the log trace.  (A raw-list payload is the `log = ""`
case of the dict branch.) -/
structure Payload where
  devices : List DiscoveredDevice
  log : String
deriving Repr

/-- `on_devices_discovered` (`vizio_gui.py:408-433`): given the previously
visible list and the payload, return the new visible list and the
`auth_status` text.  When the payload's device list is empty the handler
returns early — the visible list is NOT cleared — after setting the status
to the log (or a fallback message when the log is empty).  Otherwise it
clears and repopulates the visible list and reports the count. -/
def on_devices_discovered (prev : List DiscoveredDevice) (p : Payload) :
    List DiscoveredDevice × String :=
  if p.devices.isEmpty then
    (prev, if p.log = "" then "Background discovery found no devices" else p.log)
  else
    (p.devices,
     let combined := "Background discovery: found " ++ toString p.devices.length
       ++ " device(s)"
     if p.log = "" then combined else combined ++ "\n" ++ p.log)

/-! ### Helper lemmas -/

/-- A record whose key differs from every element of `ds` key-wise makes the
matching filter over `ds` empty. -/
lemma filter_keyEq_eq_nil {ds : List DeviceRecord} {ip : String}
    {port : Option Nat} (h : ∀ b ∈ ds, ¬(ip = b.ip ∧ port = b.port)) :
    ds.filter (fun b => keyEq b ip port) = [] := by
  refine List.filter_eq_nil_iff.mpr fun b hb => ?_
  have hb' := h b hb
  simp only [keyEq, decide_eq_true_eq]
  intro hcon
  exact hb' ⟨hcon.1.symm, hcon.2.symm⟩

/-! ### C1: upsert replace-in-place -/

/-- C1.  Saving a record `r2` whose (`ip`, `port`) equals that of a record
`r1` already present in a registry satisfying the key-uniqueness invariant
leaves the registry with exactly one record of that key — namely `r2` —
and does not grow the registry (replacement in place, not append). -/
theorem upsert_replace_in_place (rs : List DeviceRecord) (r1 r2 : DeviceRecord)
    (hinv : keyUnique rs) (h1 : r1 ∈ rs)
    (hk : r1.ip = r2.ip ∧ r1.port = r2.port) :
    (upsertRecord rs r2).filter (fun d => keyEq d r2.ip r2.port) = [r2] ∧
      (upsertRecord rs r2).length = rs.length := by
  induction rs with
  | nil => cases h1
  | cons d ds ih =>
    rcases List.pairwise_cons.mp hinv with ⟨hd, htail⟩
    by_cases hmatch : d.ip = r2.ip ∧ d.port = r2.port
    · have hup : upsertRecord (d :: ds) r2 = r2 :: ds := by
        simp [upsertRecord, keyEq, hmatch]
      rw [hup]
      refine ⟨?_, by simp⟩
      have hnil : ds.filter (fun b => keyEq b r2.ip r2.port) = [] := by
        refine filter_keyEq_eq_nil fun b hb => ?_
        have hdb := hd b hb
        intro hcon
        exact hdb ⟨hmatch.1.trans hcon.1, hmatch.2.trans hcon.2⟩
      have hr2 : keyEq r2 r2.ip r2.port = true := by simp [keyEq]
      simp [List.filter_cons, hr2, hnil]
    · have hup : upsertRecord (d :: ds) r2 = d :: upsertRecord ds r2 := by
        simp [upsertRecord, keyEq, hmatch]
      have h1' : r1 ∈ ds := by
        rcases List.mem_cons.mp h1 with h | h
        · exact absurd (h ▸ hk) hmatch
        · exact h
      obtain ⟨ihf, ihl⟩ := ih htail h1'
      rw [hup]
      constructor
      · rw [List.filter_cons]
        simp only [keyEq, decide_eq_true_eq, hmatch, if_false]
        exact ihf
      · simp [ihl]

/-- A concrete record for witnesses. -/
def recA : DeviceRecord :=
  { name := "Living Room", ip := "192.168.1.10", port := some 7345,
    device_type := "tv", auth_token := "", saved_at := "t0", favorites := [] }

/-- `recA` with the same (`ip`, `port`) but a different name and token. -/
def recA2 : DeviceRecord :=
  { name := "Living Room TV", ip := "192.168.1.10", port := some 7345,
    device_type := "tv", auth_token := "Z9", saved_at := "t1", favorites := [] }

/-- A record with a different key. -/
def recB : DeviceRecord :=
  { name := "Bedroom", ip := "192.168.1.11", port := some 7345,
    device_type := "tv", auth_token := "", saved_at := "t0", favorites := [] }

/-- Witness for C1 at a concrete two-record registry. -/
theorem upsert_replace_in_place_witness :
    (upsertRecord [recA, recB] recA2).filter
        (fun d => keyEq d recA2.ip recA2.port) = [recA2] ∧
      (upsertRecord [recA, recB] recA2).length = [recA, recB].length :=
  upsert_replace_in_place [recA, recB] recA recA2
    (by simp [keyUnique, recA, recB]) (by simp) (by simp [recA, recA2])

/-- The non-matching records of an upsert result are the non-matching
records of the input, in the same order. -/
lemma upsertRecord_filter_not_key (rs : List DeviceRecord) (r : DeviceRecord) :
    (upsertRecord rs r).filter (fun d => !keyEq d r.ip r.port) =
      rs.filter (fun d => !keyEq d r.ip r.port) := by
  induction rs with
  | nil =>
    have hr : keyEq r r.ip r.port = true := by simp [keyEq]
    simp [upsertRecord, hr]
  | cons d ds ih =>
    cases hkd : keyEq d r.ip r.port with
    | true =>
      have hr : keyEq r r.ip r.port = true := by simp [keyEq]
      simp [upsertRecord, hkd, List.filter_cons, hr]
    | false =>
      simp [upsertRecord, hkd, List.filter_cons, ih]

/-! ### C10: frame property of remove and upsert -/

/-- C10.  Both `remove_saved_device` and the upsert of
`save_selected_device` leave the sublist of records whose (`ip`, `port`)
does not match the operation's key untouched: same records, same relative
order. -/
theorem registry_frame_property (rs : List DeviceRecord) (r : DeviceRecord)
    (ip : String) (port : Option Nat) :
    (upsertRecord rs r).filter (fun d => !keyEq d r.ip r.port) =
        rs.filter (fun d => !keyEq d r.ip r.port) ∧
      (removeRecord rs ip port).filter (fun d => !keyEq d ip port) =
        rs.filter (fun d => !keyEq d ip port) := by
  refine ⟨upsertRecord_filter_not_key rs r, ?_⟩
  simp [removeRecord, List.filter_filter]

/-! ### C4: load-on-corruption safety -/

/-- C4.  When the store file is missing, or opening/parsing it raises, the
registry loads as empty — the failure is swallowed, never propagated. -/
theorem load_on_corruption_safety :
    load_saved_devices none = [] ∧
      ∀ e : String, load_saved_devices (some (Except.error e)) = [] :=
  ⟨rfl, fun _ => rfl⟩

/-! ### C8: save-failure atomicity -/

/-- C8.  `save_saved_devices` never changes the in-memory registry —
whatever the write outcome, the list after the call is the list before it —
and a write failure is reported back as a warning message naming the
error. -/
theorem save_failure_atomicity (rs : List DeviceRecord)
    (io : Except String Unit) (e : String) :
    (save_saved_devices rs io).1 = rs ∧
      (save_saved_devices rs (Except.error e)).2 =
        some ("Failed to save devices: " ++ e) := by
  refine ⟨?_, rfl⟩
  cases io <;> rfl

/-- Persisting favorites never changes the favorites themselves. -/
lemma save_favorites_preserves_favorites (st : GuiState) :
    (save_favorites_to_saved_devices st).favorites = st.favorites := by
  unfold save_favorites_to_saved_devices
  split
  · rfl
  · split <;> rfl

/-- One `add` call keeps the favorites length within the capacity bound. -/
lemma add_favorites_length_le (st : GuiState) (app : String)
    (h : st.favorites.length ≤ 6) :
    ((add_selected_app_to_favorites st app).1).favorites.length ≤ 6 := by
  by_cases h1 : app = ""
  · simpa [add_selected_app_to_favorites, h1] using h
  by_cases h2 : app ∈ st.favorites
  · simpa [add_selected_app_to_favorites, h1, h2] using h
  by_cases h3 : 6 ≤ st.favorites.length
  · simpa [add_selected_app_to_favorites, h1, h2, h3] using h
  · simp [add_selected_app_to_favorites, h1, h2, h3,
      save_favorites_preserves_favorites]
    omega

/-- Folding `add` over any sequence of app names preserves the capacity
bound. -/
lemma foldl_add_favorites_le (apps : List String) (st : GuiState)
    (h : st.favorites.length ≤ 6) :
    ((apps.foldl (fun s a => (add_selected_app_to_favorites s a).1) st).favorites).length
      ≤ 6 := by
  induction apps generalizing st with
  | nil => exact h
  | cons a as ih => exact ih _ (add_favorites_length_le st a h)

/-! ### C2: favorites capacity invariant -/

/-- C2.  Starting from the fresh state (no favorites), any sequence of
`add_selected_app_to_favorites` calls leaves at most 6 favorites. -/
theorem favorites_capacity_invariant (apps : List String) :
    ((apps.foldl (fun s a => (add_selected_app_to_favorites s a).1) freshGui).favorites).length
      ≤ 6 :=
  foldl_add_favorites_le apps freshGui (by simp [freshGui])

/-! ### C5: favorites add semantics -/

/-- C5.  On a favorites list within capacity (the data-model invariant),
`add` rejects — leaving the whole state untouched — exactly when the app
name is empty, already present, or the list already holds 6 entries; in
every other case it appends the app name at the end, keeping the earlier
entries in order. -/
theorem favorites_add_semantics (st : GuiState) (app : String)
    (hinv : st.favorites.length ≤ 6) :
    ((add_selected_app_to_favorites st app).2 ≠ AddOutcome.added ↔
        (app = "" ∨ app ∈ st.favorites ∨ st.favorites.length = 6)) ∧
      ((add_selected_app_to_favorites st app).2 ≠ AddOutcome.added →
        (add_selected_app_to_favorites st app).1 = st) ∧
      ((add_selected_app_to_favorites st app).2 = AddOutcome.added →
        ((add_selected_app_to_favorites st app).1).favorites =
          st.favorites ++ [app]) := by
  by_cases h1 : app = ""
  · simp [add_selected_app_to_favorites, h1]
  by_cases h2 : app ∈ st.favorites
  · simp [add_selected_app_to_favorites, h1, h2]
  by_cases h3 : 6 ≤ st.favorites.length
  · have h6 : st.favorites.length = 6 := le_antisymm hinv h3
    simp [add_selected_app_to_favorites, h1, h2, h3, h6]
  · have h6 : ¬ st.favorites.length = 6 := by omega
    simp [add_selected_app_to_favorites, h1, h2, h3, h6,
      save_favorites_preserves_favorites]

/-- A concrete state for the C5 witness: one favorite, within capacity. -/
def favWitState : GuiState :=
  { favorites := ["Netflix"], saved_devices := [], selected := none,
    saveCount := 0 }

/-- Witness for C5: adding "Hulu" to a one-entry list succeeds and
appends. -/
theorem favorites_add_semantics_witness :
    favWitState.favorites.length ≤ 6 ∧
      (((add_selected_app_to_favorites favWitState "Hulu").2 ≠ AddOutcome.added ↔
          ("Hulu" = "" ∨ "Hulu" ∈ favWitState.favorites ∨
            favWitState.favorites.length = 6)) ∧
        ((add_selected_app_to_favorites favWitState "Hulu").2 ≠ AddOutcome.added →
          (add_selected_app_to_favorites favWitState "Hulu").1 = favWitState) ∧
        ((add_selected_app_to_favorites favWitState "Hulu").2 = AddOutcome.added →
          ((add_selected_app_to_favorites favWitState "Hulu").1).favorites =
            favWitState.favorites ++ ["Hulu"])) :=
  ⟨by decide, favorites_add_semantics favWitState "Hulu" (by decide)⟩

/-! ### C7: favorites persistence coupling -/

/-- When some record of `rs` matches the key, `updateFirstFavorites`
produces a list containing a record with that key whose favorites are the
new list. -/
lemma updateFirstFavorites_mem (rs : List DeviceRecord) (ip : String)
    (port : Option Nat) (favs : List String)
    (h : ∃ d ∈ rs, d.ip = ip ∧ d.port = port) :
    ∃ d ∈ updateFirstFavorites rs ip port favs,
      d.ip = ip ∧ d.port = port ∧ d.favorites = favs := by
  induction rs with
  | nil => rcases h with ⟨d, hd, _⟩; cases hd
  | cons d ds ih =>
    cases hkd : keyEq d ip port with
    | true =>
      have hdk : d.ip = ip ∧ d.port = port := by
        simpa [keyEq] using hkd
      exact ⟨{ d with favorites := favs },
        by simp [updateFirstFavorites, hkd], hdk.1, hdk.2, rfl⟩
    | false =>
      have h' : ∃ b ∈ ds, b.ip = ip ∧ b.port = port := by
        rcases h with ⟨b, hb, hbk⟩
        rcases List.mem_cons.mp hb with hb | hb
        · exfalso
          have : keyEq d ip port = true := by
            simp [keyEq, hb ▸ hbk.1, hb ▸ hbk.2]
          simp [this] at hkd
        · exact ⟨b, hb, hbk⟩
      obtain ⟨b, hb, hprop⟩ := ih h'
      exact ⟨b, by simp [updateFirstFavorites, hkd, hb], hprop⟩

/-- C7.  When the selected device is a saved record present in the registry,
a successful `add` writes the appended favorites list back into a registry
record with that device's (`ip`, `port`) and performs exactly one
immediate registry save. -/
theorem favorites_persistence_coupling (st : GuiState) (app ip : String)
    (port : Option Nat) (hsel : st.selected = some (ip, port))
    (hmem : ∃ d ∈ st.saved_devices, d.ip = ip ∧ d.port = port)
    (hadded : (add_selected_app_to_favorites st app).2 = AddOutcome.added) :
    (∃ d ∈ (add_selected_app_to_favorites st app).1.saved_devices,
        d.ip = ip ∧ d.port = port ∧ d.favorites = st.favorites ++ [app]) ∧
      (add_selected_app_to_favorites st app).1.saveCount = st.saveCount + 1 := by
  have h1 : ¬ app = "" := by
    intro h
    simp [add_selected_app_to_favorites, h] at hadded
  have h2 : ¬ app ∈ st.favorites := by
    intro h
    simp [add_selected_app_to_favorites, h1, h] at hadded
  have h3 : ¬ 6 ≤ st.favorites.length := by
    intro h
    simp [add_selected_app_to_favorites, h1, h2, h] at hadded
  have hany : st.saved_devices.any (fun d => keyEq d ip port) = true := by
    rcases hmem with ⟨d, hd, hip, hport⟩
    exact List.any_eq_true.mpr ⟨d, hd, by simp [keyEq, hip, hport]⟩
  have hadd : (add_selected_app_to_favorites st app).1 =
      save_favorites_to_saved_devices
        { st with favorites := st.favorites ++ [app] } := by
    simp [add_selected_app_to_favorites, h1, h2, h3]
  have hsave : save_favorites_to_saved_devices
      { st with favorites := st.favorites ++ [app] } =
      { favorites := st.favorites ++ [app],
        saved_devices :=
          updateFirstFavorites st.saved_devices ip port (st.favorites ++ [app]),
        selected := st.selected,
        saveCount := st.saveCount + 1 } := by
    simp [save_favorites_to_saved_devices, hsel, hany]
  rw [hadd, hsave]
  exact ⟨updateFirstFavorites_mem st.saved_devices ip port
    (st.favorites ++ [app]) hmem, rfl⟩

/-- A concrete state for the C7 witness: `recA` is saved and selected. -/
def favCoupleState : GuiState :=
  { favorites := ["Netflix"], saved_devices := [recA],
    selected := some ("192.168.1.10", some 7345), saveCount := 0 }

/-- Witness for C7: adding "Hulu" while `recA` is the selected saved device
updates `recA`'s registry entry and bumps the save counter. -/
theorem favorites_persistence_coupling_witness :
    favCoupleState.selected = some ("192.168.1.10", some 7345) ∧
      ((∃ d ∈ (add_selected_app_to_favorites favCoupleState "Hulu").1.saved_devices,
          d.ip = "192.168.1.10" ∧ d.port = some 7345 ∧
            d.favorites = favCoupleState.favorites ++ ["Hulu"]) ∧
        (add_selected_app_to_favorites favCoupleState "Hulu").1.saveCount =
          favCoupleState.saveCount + 1) :=
  ⟨rfl, favorites_persistence_coupling favCoupleState "Hulu" "192.168.1.10"
    (some 7345) rfl ⟨recA, by simp [favCoupleState], rfl, rfl⟩ (by decide)⟩

/-! ### C6: discovery fallback order -/

/-- C6.  In every discovery run, zeroconf is invoked first; SSDP is invoked
exactly when zeroconf returned an empty result set (a raised zeroconf call
aborts the run without trying SSDP); and neither strategy runs more than
once within the run. -/
theorem discovery_fallback_order (zc sd : Except String (List DiscoveredDevice)) :
    (discoveryRun zc sd).2.head? = some Strategy.zeroconf ∧
      (Strategy.ssdp ∈ (discoveryRun zc sd).2 ↔ zc = Except.ok []) ∧
      (discoveryRun zc sd).2.count Strategy.zeroconf = 1 ∧
      (discoveryRun zc sd).2.count Strategy.ssdp ≤ 1 := by
  cases zc with
  | error e => simp [discoveryRun]
  | ok ds =>
    cases ds with
    | nil => cases sd <;> simp [discoveryRun]
    | cons d ds => simp [discoveryRun]

/-! ### C9: empty background result leaves the visible list untouched -/

/-- C9.  When a background discovery run delivers an empty device list, the
handler only updates the status text (to the run's log, or to a fallback
message when the log is empty) and returns — the previously visible
entries stay in place. -/
theorem background_empty_preserves_list (prev : List DiscoveredDevice)
    (p : Payload) (h : p.devices = []) :
    (on_devices_discovered prev p).1 = prev ∧
      (on_devices_discovered prev p).2 =
        (if p.log = "" then "Background discovery found no devices" else p.log) := by
  simp [on_devices_discovered, h]

/-- A concrete discovery result for witnesses. -/
def devA : DiscoveredDevice :=
  { name := "Device A", ip := "192.168.1.20", port := none }

/-- Witness for C9 at a concrete prior list and empty payload. -/
theorem background_empty_preserves_list_witness :
    ({ devices := [], log := "" } : Payload).devices = [] ∧
      ((on_devices_discovered [devA] { devices := [], log := "" }).1 = [devA] ∧
        (on_devices_discovered [devA] { devices := [], log := "" }).2 =
          (if ("" : String) = "" then "Background discovery found no devices"
           else "")) :=
  ⟨rfl, background_empty_preserves_list [devA] { devices := [], log := "" } rfl⟩

/-! ### C3: discovery replace-not-merge (corrected) -/

/-- Counterexample to C3 as stated: with `[devA]` visible from a first run,
a second run delivered through the background handler with zero devices
leaves `[devA]` visible — not the empty set the second run returned. -/
theorem discovery_replace_counterexample :
    (on_devices_discovered [devA] { devices := [], log := "" }).1 = [devA] ∧
      [devA] ≠ ([] : List DiscoveredDevice) := by
  exact ⟨rfl, by simp⟩

/-- C3 amended.  A synchronous UI run always fully replaces the visible
list with its result set (cleared at the start, so a zero-device result
leaves it empty and a raised call leaves it empty); a background-delivered
run replaces it with its result set exactly when that set is nonempty,
and a background run delivering zero devices leaves the previously visible
entries in place. -/
theorem discovery_replace_amended (prev res : List DiscoveredDevice)
    (lg e : String) :
    discover_devices_update prev (Except.ok res) = res ∧
      discover_devices_update prev (Except.error e) = [] ∧
      (on_devices_discovered prev { devices := res, log := lg }).1 =
        (if res = [] then prev else res) := by
  refine ⟨rfl, rfl, ?_⟩
  by_cases h : res = []
  · simp [on_devices_discovered, h]
  · simp [on_devices_discovered, h]

end PyvizioGui
